import Mathlib

/-!
Verification of the pyvmwareapi driver against its specification.

The definitions below are a shallow embedding of the Python sources:
`driver.py` (`VMwareAPISession._call_method`, `_wait_for_task`, `_poll_task`),
`vmops.py` (`VMwareVMOps.spawn`, `destroy`, `power_on`) and
`network_util.py` (`create_port_group`).  Remote invocations are modelled by
scripts (functions from the attempt index to that attempt's outcome) or by an
environment record describing the state of the remote endpoint; the embedded
functions return the trace of remote operations they perform together with
their result.
-/

namespace PyVmwareApi

/-- Fault name carried by `error_util.VimFaultException.fault_list` for an
expired session.  Modelled from the spec: `error_util` is not under src/; §3
and §7 of the spec name the fault taxonomy entry `NotAuthenticated`. -/
def FAULT_NOT_AUTHENTICATED : String := "NotAuthenticated"

/-- Fault name for a duplicate-creation conflict.  Modelled from the spec:
`error_util` is not under src/; §3 and §7 name the taxonomy entry
`AlreadyExists`. -/
def FAULT_ALREADY_EXISTS : String := "AlreadyExists"

/-- `TIME_BETWEEN_API_CALL_RETRIES` from driver.py (2.0 seconds, kept as a
natural number of seconds). -/
def TIME_BETWEEN_API_CALL_RETRIES : Nat := 2

/-- The exceptions one remote invocation attempt can raise, as classified by
the vim request handler (pyvmwareapi/vim.py): `VimFaultException` carries the
list of SOAP fault names, `SessionOverLoadException` signals transport
saturation, and anything else is a plain exception. -/
inductive PyExc where
  | vimFault (faultList : List String)
  | overload (detail : String)
  | generic (detail : String)
deriving DecidableEq, Repr

/-- Outcome of a single invocation attempt inside `_call_method`'s loop. -/
inductive Attempt (α : Type) where
  | ok (v : α)
  | exn (e : PyExc)
deriving DecidableEq, Repr

/-- Observable events of `VMwareAPISession._call_method` (driver.py):
`attempt n` is the n-th invocation attempt (1-based, the value of
`retry_count` during that attempt), `createSession` is a call to
`self._create_session()`, and `sleep` is
`time.sleep(TIME_BETWEEN_API_CALL_RETRIES)`. -/
inductive SessionEvent where
  | attempt (n : Nat)
  | createSession
  | sleep
deriving DecidableEq, Repr

/-- How `_call_method` terminates: a normal return value, the hard-coded
`return []` on the second consecutive `NotAuthenticated` fault, or an
exception propagating to the caller. -/
inductive CallResult (α : Type) where
  | value (v : α)
  | emptyList
  | raised (e : PyExc)
deriving DecidableEq, Repr

/-- One iteration of the `while True` loop of
`VMwareAPISession._call_method` (driver.py lines 340-406).  `retryCount` and
`lastFaultList` are the Python locals `retry_count` (value before the
`retry_count += 1` of this iteration) and `last_fault_list`; `script k` is the
outcome of the attempt made with `retry_count = k + 1`.  The `fuel` argument
only serves termination: the loop itself stops once `retry_count`
exceeds `api_retry_count`, so starting from `apiRetryCount + 1` the
fuel never runs out (the fuel-exhausted branch is unreachable from
`callMethod`). -/
def callMethodAux {α : Type} (script : Nat → Attempt α) (apiRetryCount : Nat)
    (retryCount : Nat) (lastFaultList : List String) :
    Nat → List SessionEvent × CallResult α
  | 0 => ([], CallResult.raised (PyExc.generic "out of fuel"))
  | fuel + 1 =>
    let rc := retryCount + 1
    match script retryCount with
    | Attempt.ok v => ([SessionEvent.attempt rc], CallResult.value v)
    | Attempt.exn e =>
      match e with
      | PyExc.vimFault fl =>
        if FAULT_NOT_AUTHENTICATED ∈ fl then
          if FAULT_NOT_AUTHENTICATED ∈ lastFaultList then
            ([SessionEvent.attempt rc], CallResult.emptyList)
          else
            if rc > apiRetryCount then
              ([SessionEvent.attempt rc, SessionEvent.createSession],
               CallResult.raised e)
            else
              let rest := callMethodAux script apiRetryCount rc fl fuel
              (SessionEvent.attempt rc :: SessionEvent.createSession ::
                 SessionEvent.sleep :: rest.1, rest.2)
        else
          ([SessionEvent.attempt rc], CallResult.raised e)
      | PyExc.overload _ =>
        if rc > apiRetryCount then
          ([SessionEvent.attempt rc], CallResult.raised e)
        else
          let rest := callMethodAux script apiRetryCount rc lastFaultList fuel
          (SessionEvent.attempt rc :: SessionEvent.sleep :: rest.1, rest.2)
      | PyExc.generic _ => ([SessionEvent.attempt rc], CallResult.raised e)

/-- `VMwareAPISession._call_method`: run the retry loop from its initial state
(`retry_count = 0`, `last_fault_list = []`). -/
def callMethod {α : Type} (script : Nat → Attempt α) (apiRetryCount : Nat) :
    List SessionEvent × CallResult α :=
  callMethodAux script apiRetryCount 0 [] (apiRetryCount + 1)

/-- Whether a session event is an invocation attempt. -/
def isAttemptEvent : SessionEvent → Bool
  | SessionEvent.attempt _ => true
  | _ => false

/-- Whether a session event is an inter-retry sleep. -/
def isSleepEvent : SessionEvent → Bool
  | SessionEvent.sleep => true
  | _ => false

/-- The `error` attribute of a polled `TaskInfo`, when present. -/
structure TaskError where
  localizedMessage : String
deriving DecidableEq, Repr

/-- The polled `TaskInfo` projection read by `_poll_task` via
`get_dynamic_property(task_ref, "Task", "info")`. -/
structure TaskInfo where
  name : String
  state : String
  error : Option TaskError
deriving DecidableEq, Repr

/-- How one probe run of `_poll_task` ends: `reschedule` is the early
`return` for the `queued`/`running` states (the `FixedIntervalLoopingCall`
fires the probe again), the others call `done.send`/`done.send_exception`
and so resolve the wait. -/
inductive PollDecision where
  | reschedule
  | success
  | failure (message : String)
  | failureNoError
deriving DecidableEq, Repr

/-- One run of `VMwareAPISession._poll_task` (driver.py lines 427-449) on the
fetched `TaskInfo`.  `queued`/`running` reschedule; `success` sends the string
`"success"`; any other state reads `task_info.error.localizedMessage` and
sends `NovaException` with exactly that text (when `error` is absent the
attribute access raises and the raised exception is sent instead). -/
def pollTask (info : TaskInfo) : PollDecision :=
  if info.state ∈ ["queued", "running"] then
    PollDecision.reschedule
  else if info.state = "success" then
    PollDecision.success
  else
    match info.error with
    | some err => PollDecision.failure err.localizedMessage
    | none => PollDecision.failureNoError

/-- Result of `_wait_for_task`: the number of probe runs it took to resolve
and the resolution itself. -/
inductive WaitResult where
  | success
  | failure (message : String)
  | failureNoError
deriving DecidableEq, Repr

/-- The polling loop of `VMwareAPISession._wait_for_task` (driver.py lines
414-425): the looping call runs `_poll_task` on successive `TaskInfo`
snapshots (`infos k` is what the k-th probe fetches, 0-based) until a probe
resolves the wait; `loop.stop()` then ends the polling.  `fuel` bounds the
number of probes we unfold — a task that never leaves `queued`/`running` is
polled forever, which the model reports as `none`. -/
def waitForTaskAux (infos : Nat → TaskInfo) (polls : Nat) :
    Nat → Option (Nat × WaitResult)
  | 0 => none
  | fuel + 1 =>
    match pollTask (infos polls) with
    | PollDecision.reschedule => waitForTaskAux infos (polls + 1) fuel
    | PollDecision.success => some (polls + 1, WaitResult.success)
    | PollDecision.failure m => some (polls + 1, WaitResult.failure m)
    | PollDecision.failureNoError => some (polls + 1, WaitResult.failureNoError)

/-- `VMwareAPISession._wait_for_task` on a task whose successive polled
snapshots are `infos`, unfolding at most `fuel` probes. -/
def waitForTask (infos : Nat → TaskInfo) (fuel : Nat) :
    Option (Nat × WaitResult) :=
  waitForTaskAux infos 0 fuel

/-- How `network_util.create_port_group` terminates: a normal return (also
when the `AlreadyExists` fault was swallowed), `raise
exception.NovaException(exc)` for a `VimFaultException` whose fault list has
no `AlreadyExists`, or an exception of another class propagating uncaught. -/
inductive PortGroupOutcome where
  | ok
  | novaError (original : PyExc)
  | uncaught (e : PyExc)
deriving DecidableEq, Repr

/-- `network_util.create_port_group` (network_util.py lines 149-179): the
`AddPortGroup` invocation goes through `session._call_method`; only
`VimFaultException` is caught, and it is swallowed exactly when
`FAULT_ALREADY_EXISTS` is in its fault list.  `script k` is the outcome of
the k-th `AddPortGroup` attempt made by the session layer. -/
def create_port_group {α : Type} (script : Nat → Attempt α)
    (apiRetryCount : Nat) : List SessionEvent × PortGroupOutcome :=
  let r := callMethod script apiRetryCount
  (r.1,
    match r.2 with
    | CallResult.raised (PyExc.vimFault fl) =>
      if FAULT_ALREADY_EXISTS ∈ fl then PortGroupOutcome.ok
      else PortGroupOutcome.novaError (PyExc.vimFault fl)
    | CallResult.raised e => PortGroupOutcome.uncaught e
    | _ => PortGroupOutcome.ok)

/-- The remote operations issued by the vmops orchestrators, in the order the
source issues them.  Operations suffixed `Task` stand for the long-running
invocation together with the `_wait_for_task` on its handle. -/
inductive RemoteOp where
  | lookupVmRef (name : String)
  | getDatastore
  | getImageProperties
  | getVmFolderRef
  | getResPoolRef
  | resolveVifs
  | createVmTask (name : String)
  | setMachineId
  | setVncConfig
  | checkFolderFileExists (folder file : String)
  | createVirtualDiskTask (name : String)
  | deleteDatastoreFileTask (name : String)
  | fetchImage (filePath : String)
  | copyVirtualDiskTask (sourceName destName : String)
  | attachDiskToVm (path diskType : String)
  | attachVolume
  | powerOnVmTask
  | getObjectProperties
  | getDynamicProperty (prop : String)
  | powerOffVmTask
  | unregisterVm
  | unplugVifs
deriving DecidableEq, Repr

/-- Modelled from the spec: `vm_util.build_datastore_path` is not under src/;
the glossary's datastore-path convention prefixes the datastore name in
square brackets before the datastore-relative path. -/
def build_datastore_path (dataStoreName path : String) : String :=
  "[" ++ dataStoreName ++ "] " ++ path

/-- Splits a character list at the first `"] "` separator, keeping what came
before (reversed accumulator) and what comes after. -/
def splitDatastoreAux (acc : List Char) : List Char → List Char × List Char
  | [] => (acc.reverse, [])
  | ']' :: ' ' :: rest => (acc.reverse, rest)
  | c :: rest => splitDatastoreAux (c :: acc) rest

/-- Modelled from the spec: `vm_util.split_datastore_path` is not under src/;
it inverts `build_datastore_path`, returning the datastore name (between the
square brackets) and the datastore-relative path. -/
def split_datastore_path (dsPath : String) : String × String :=
  let p := splitDatastoreAux [] dsPath.toList
  (String.mk (p.1.drop 1), String.mk p.2)

/-- `os.path.dirname`, as applied to the vmx file path in `destroy`: the part
of the path before its last `/`, or `""` when there is none. -/
def dirname (p : String) : String :=
  match (p.toList.reverse).dropWhile (fun c => c ≠ '/') with
  | [] => ""
  | _ :: rest => String.mk rest.reverse

/-- Environment of one `VMwareVMOps.spawn` run (vmops.py lines 115-430): the
instance and image identity, the configuration flags read from `CONF`, the
image properties, and the answers of the remote endpoint to the lookups
spawn performs. -/
structure SpawnEnv where
  instanceName : String
  imageRef : String
  vmExists : Bool
  dataStoreName : String
  diskType : String
  flatInjected : Bool
  vncEnabled : Bool
  ebsRoot : Bool
  useLinkedClone : Bool
  instancePathBase : String
  cacheExists : Bool
deriving DecidableEq, Repr

/-- `upload_folder` of spawn's disk phase (vmops.py lines 356-362). -/
def uploadFolder (env : SpawnEnv) : String :=
  if env.useLinkedClone then env.instancePathBase else env.instanceName

/-- `upload_name` of spawn's disk phase (vmops.py lines 356-362). -/
def uploadName (env : SpawnEnv) : String :=
  if env.useLinkedClone then env.imageRef else env.instanceName

/-- `uploaded_vmdk_name`: the canonical vmdk meta-data file, datastore
relative (vmops.py line 365). -/
def uploadedVmdkName (env : SpawnEnv) : String :=
  uploadFolder env ++ "/" ++ uploadName env ++ ".vmdk"

/-- `uploaded_vmdk_path` (vmops.py line 366). -/
def uploadedVmdkPath (env : SpawnEnv) : String :=
  build_datastore_path env.dataStoreName (uploadedVmdkName env)

/-- `flat_uploaded_vmdk_name` (vmops.py line 375). -/
def flatUploadedVmdkName (env : SpawnEnv) : String :=
  uploadFolder env ++ "/" ++ uploadName env ++ "-flat.vmdk"

/-- `sparse_uploaded_vmdk_name` (vmops.py line 378). -/
def sparseUploadedVmdkName (env : SpawnEnv) : String :=
  uploadFolder env ++ "/" ++ uploadName env ++ "-sparse.vmdk"

/-- `flat_uploaded_vmdk_path` (vmops.py line 381). -/
def flatUploadedVmdkPath (env : SpawnEnv) : String :=
  build_datastore_path env.dataStoreName (flatUploadedVmdkName env)

/-- `sparse_uploaded_vmdk_path` (vmops.py line 384). -/
def sparseUploadedVmdkPath (env : SpawnEnv) : String :=
  build_datastore_path env.dataStoreName (sparseUploadedVmdkName env)

/-- The disk phase of `VMwareVMOps.spawn` (vmops.py lines 352-419), as the
list of remote operations it issues.  For a non-volume root: when
`use_linked_clone` holds the datastore is probed for the cached base artifact
(the probe is short-circuited away otherwise); on a miss, the `sparse` branch
uploads the image to the `-sparse` path, copies it to a thin disk at the
canonical path and deletes the sparse artifact, while any other disk type
creates the virtual disk, deletes the `-flat` payload and uploads the image;
both then attach the canonical vmdk (with `disk_type` rewritten from
`sparse` to `thin`).  For a volume root only the volume is attached. -/
def diskPhaseOps (env : SpawnEnv) : List RemoteOp :=
  if env.ebsRoot then
    [RemoteOp.attachVolume]
  else
    let checkOps :=
      if env.useLinkedClone then
        [RemoteOp.checkFolderFileExists (uploadFolder env)
          (uploadName env ++ ".vmdk")]
      else []
    let finalDiskType := if env.diskType = "sparse" then "thin" else env.diskType
    if env.useLinkedClone && env.cacheExists then
      checkOps ++ [RemoteOp.attachDiskToVm (uploadedVmdkPath env) finalDiskType]
    else
      let createOps :=
        if env.diskType ≠ "sparse" then
          [RemoteOp.createVirtualDiskTask (uploadedVmdkPath env),
           RemoteOp.deleteDatastoreFileTask (flatUploadedVmdkPath env)]
        else []
      let fetchOps :=
        [RemoteOp.fetchImage
          (if env.diskType = "sparse" then sparseUploadedVmdkName env
           else flatUploadedVmdkName env)]
      let copyOps :=
        if env.diskType = "sparse" then
          [RemoteOp.copyVirtualDiskTask (sparseUploadedVmdkPath env)
             (uploadedVmdkPath env),
           RemoteOp.deleteDatastoreFileTask (sparseUploadedVmdkPath env)]
        else []
      checkOps ++ createOps ++ fetchOps ++ copyOps ++
        [RemoteOp.attachDiskToVm (uploadedVmdkPath env) finalDiskType]

/-- How `spawn` terminates. -/
inductive SpawnResult where
  | ok
  | instanceExists (name : String)
deriving DecidableEq, Repr

/-- `VMwareVMOps.spawn` (vmops.py lines 115-430) as the trace of remote
operations it issues and its result.  It first resolves the instance name to
a VM reference and raises `InstanceExists` if one is found; otherwise it
gathers the datastore, image properties, folder, resource pool and network
references, creates the shell VM and re-resolves its reference, applies the
optional machine-id and VNC configuration, runs the disk phase and finally
powers the VM on. -/
def spawn (env : SpawnEnv) : List RemoteOp × SpawnResult :=
  if env.vmExists then
    ([RemoteOp.lookupVmRef env.instanceName],
     SpawnResult.instanceExists env.instanceName)
  else
    ([RemoteOp.lookupVmRef env.instanceName, RemoteOp.getDatastore,
      RemoteOp.getImageProperties, RemoteOp.getVmFolderRef,
      RemoteOp.getResPoolRef, RemoteOp.resolveVifs,
      RemoteOp.createVmTask env.instanceName,
      RemoteOp.lookupVmRef env.instanceName]
     ++ (if env.flatInjected then [RemoteOp.setMachineId] else [])
     ++ (if env.vncEnabled then [RemoteOp.setVncConfig] else [])
     ++ diskPhaseOps env
     ++ [RemoteOp.powerOnVmTask], SpawnResult.ok)

/-- Whether a remote operation creates server-side state (a shell VM, a disk
artifact or an uploaded image). -/
def isCreationOp : RemoteOp → Bool
  | RemoteOp.createVmTask _ => true
  | RemoteOp.createVirtualDiskTask _ => true
  | RemoteOp.fetchImage _ => true
  | RemoteOp.copyVirtualDiskTask _ _ => true
  | _ => false

/-- Environment of one `VMwareVMOps.destroy` run (vmops.py lines 669-748):
the instance identity, the endpoint's answers to the lookup and the property
fetch, the caller's arguments, and which of the remote steps fail with an
exception. -/
structure DestroyEnv where
  instanceName : String
  vmExists : Bool
  powerState : String
  vmPathName : Option String
  networkInfo : Bool
  destroyDisks : Bool
  powerOffFails : Bool
  unregisterFails : Bool
  deleteFails : Bool
deriving DecidableEq, Repr

/-- What a `destroy` run produced: the remote operations attempted, the
warnings logged by the per-step `except` blocks (and by the outer catch-all),
in order.  `destroy` itself always returns normally — every exception is
caught and logged. -/
structure DestroyOutcome where
  ops : List RemoteOp
  warnings : List String
deriving DecidableEq, Repr

/-- `VMwareVMOps.destroy` (vmops.py lines 669-748).  An absent VM returns
after the initial lookup.  Otherwise the properties are fetched, a
powered-on VM is powered off (a failure there is only caught by the outer
catch-all, which logs and returns), then `UnregisterVM` and — for
`destroy_disks` — `DeleteDatastoreFile_Task` on the directory of the vmx
path are each attempted inside their own `try/except` that logs the failure
and continues.  When `config.files.vmPathName` was absent the delete block
fails before issuing its remote call (the datastore name is unbound) and is
likewise only logged. -/
def destroy (env : DestroyEnv) : DestroyOutcome :=
  if env.vmExists = false then
    { ops := [RemoteOp.lookupVmRef env.instanceName], warnings := [] }
  else
    let baseOps := [RemoteOp.lookupVmRef env.instanceName,
                    RemoteOp.getObjectProperties]
    if env.powerState = "poweredOn" && env.powerOffFails then
      { ops := baseOps ++ [RemoteOp.powerOffVmTask],
        warnings := ["exception logged by outer handler"] }
    else
      let powerOps :=
        if env.powerState = "poweredOn" then [RemoteOp.powerOffVmTask] else []
      let unregWarnings :=
        if env.unregisterFails then
          ["got this exception while un-registering the VM"]
        else []
      let unplugOps := if env.networkInfo then [RemoteOp.unplugVifs] else []
      let deleteStep :=
        if env.destroyDisks then
          match env.vmPathName with
          | some raw =>
            let ds := split_datastore_path raw
            ([RemoteOp.deleteDatastoreFileTask
                (build_datastore_path ds.1 (dirname ds.2))],
             if env.deleteFails then
               ["got this exception while deleting the VM contents"]
             else [])
          | none =>
            ([], ["got this exception while deleting the VM contents"])
        else ([], [])
      { ops := baseOps ++ powerOps ++ [RemoteOp.unregisterVm] ++ unplugOps
               ++ deleteStep.1,
        warnings := unregWarnings ++ deleteStep.2 }

/-- Environment of a `VMwareVMOps.power_on` run (vmops.py lines 866-885):
whether the name resolves to a VM and its `runtime.powerState`. -/
structure PowerEnv where
  instanceName : String
  vmExists : Bool
  powerState : String
deriving DecidableEq, Repr

/-- How `power_on` terminates. -/
inductive PowerOnResult where
  | ok
  | instanceNotFound
deriving DecidableEq, Repr

/-- `VMwareVMOps.power_on` (vmops.py lines 866-885): resolve the name (absent
VM raises `InstanceNotFound`), read `runtime.powerState`, and return without
any further call when it is already `poweredOn`; otherwise issue
`PowerOnVM_Task` and await it.  The returned environment reflects the remote
state afterwards: a completed power-on task leaves the VM `poweredOn`. -/
def power_on (env : PowerEnv) : List RemoteOp × PowerOnResult × PowerEnv :=
  if env.vmExists = false then
    ([RemoteOp.lookupVmRef env.instanceName], PowerOnResult.instanceNotFound,
     env)
  else if env.powerState = "poweredOn" then
    ([RemoteOp.lookupVmRef env.instanceName,
      RemoteOp.getDynamicProperty "runtime.powerState"], PowerOnResult.ok, env)
  else
    ([RemoteOp.lookupVmRef env.instanceName,
      RemoteOp.getDynamicProperty "runtime.powerState",
      RemoteOp.powerOnVmTask], PowerOnResult.ok,
     { env with powerState := "poweredOn" })

/-- Whether a remote operation is the `PowerOnVM_Task` job. -/
def isPowerOnTaskOp : RemoteOp → Bool
  | RemoteOp.powerOnVmTask => true
  | _ => false

lemma callMethodAux_overload {α : Type} (script : Nat → Attempt α)
    (d : Nat → String) (n : Nat)
    (hs : ∀ k, script k = Attempt.exn (PyExc.overload (d k))) :
    ∀ fuel rc lfl, rc ≤ n → rc + fuel = n + 1 →
      callMethodAux script n rc lfl fuel =
        ((List.range' (rc + 1) (n - rc)).flatMap
            (fun j => [SessionEvent.attempt j, SessionEvent.sleep])
          ++ [SessionEvent.attempt (n + 1)],
         CallResult.raised (PyExc.overload (d n))) := by
  intro fuel
  induction fuel with
  | zero => intro rc lfl hle hsum; omega
  | succ fuel ih =>
    intro rc lfl hle hsum
    rw [callMethodAux, hs rc]
    by_cases hcase : rc = n
    · subst hcase
      simp [Nat.lt_irrefl]
    · have hlt : rc < n := lt_of_le_of_ne hle hcase
      have hnotgt : ¬ rc + 1 > n := by omega
      simp only [hnotgt, if_false]
      rw [ih (rc + 1) lfl (by omega) (by omega)]
      have hrange : n - rc = (n - (rc + 1)) + 1 := by omega
      rw [hrange, List.range'_succ]
      simp [List.flatMap_cons]

lemma countP_attempt_sleep_pairs (l : List Nat) :
    ((l.flatMap fun j => [SessionEvent.attempt j, SessionEvent.sleep]).countP
        isAttemptEvent = l.length) ∧
    ((l.flatMap fun j => [SessionEvent.attempt j, SessionEvent.sleep]).countP
        isSleepEvent = l.length) := by
  induction l with
  | nil => simp
  | cons x xs ih =>
    simp [List.flatMap_cons, List.countP_append, List.countP_cons, ih.1, ih.2,
          isAttemptEvent, isSleepEvent]

/-- C1 (amended): for an invocation failing with an Overload
(`SessionOverLoadException`) fault on every attempt, `_call_method` makes
exactly `api_retry_count + 1` attempts — one more than the configured retry
budget — sleeping the fixed delay between consecutive attempts
(`api_retry_count` sleeps), and then raises the last observed Overload
fault. -/
theorem overload_makes_budget_plus_one_attempts {α : Type}
    (script : Nat → Attempt α) (d : Nat → String) (n : Nat)
    (hs : ∀ k, script k = Attempt.exn (PyExc.overload (d k))) :
    callMethod script n =
      ((List.range' 1 n).flatMap
          (fun j => [SessionEvent.attempt j, SessionEvent.sleep])
        ++ [SessionEvent.attempt (n + 1)],
       CallResult.raised (PyExc.overload (d n))) ∧
    (callMethod script n).1.countP isAttemptEvent = n + 1 ∧
    (callMethod script n).1.countP isSleepEvent = n := by
  have htrace := callMethodAux_overload script d n hs (n + 1) 0 []
    (Nat.zero_le n) (by omega)
  have hmain : callMethod script n =
      ((List.range' 1 n).flatMap
          (fun j => [SessionEvent.attempt j, SessionEvent.sleep])
        ++ [SessionEvent.attempt (n + 1)],
       CallResult.raised (PyExc.overload (d n))) := by
    rw [callMethod, htrace]
    simp
  refine ⟨hmain, ?_, ?_⟩
  · rw [hmain]
    simp [List.countP_append, (countP_attempt_sleep_pairs _).1,
          isAttemptEvent]
  · rw [hmain]
    simp [List.countP_append, (countP_attempt_sleep_pairs _).2,
          isSleepEvent]

/-- C1 witness: with a retry budget of 2 and an always-Overload script, the
trace is attempt-sleep-attempt-sleep-attempt and the final Overload fault is
raised. -/
theorem overload_makes_budget_plus_one_attempts_witness :
    callMethod (fun _ : Nat => Attempt.exn (α := Unit) (PyExc.overload "x")) 2 =
      ((List.range' 1 2).flatMap
          (fun j => [SessionEvent.attempt j, SessionEvent.sleep])
        ++ [SessionEvent.attempt 3],
       CallResult.raised (PyExc.overload "x")) :=
  (overload_makes_budget_plus_one_attempts _ (fun _ => "x") 2
    (fun _ => rfl)).1

/-- C1 counterexample: with `api_retry_count = 2` and every attempt failing
with Overload, `_call_method` makes 3 attempts, not the 2 the claim
states. -/
theorem overload_exactly_budget_attempts_false :
    ((callMethod (fun _ : Nat => Attempt.exn (α := Unit)
        (PyExc.overload "boom")) 2).1.countP isAttemptEvent) ≠ 2 := by
  decide

/-- C2: when the first attempt raises a `NotAuthenticated` fault,
`_call_method` creates a new session and retries; when the retried attempt
raises `NotAuthenticated` again right after the successful relogin, it
returns the empty collection `[]` instead of retrying further or raising. -/
theorem notauth_two_strikes_returns_empty {α : Type} (script : Nat → Attempt α)
    (n : Nat) (hn : 1 ≤ n) (fl0 fl1 : List String)
    (h0 : script 0 = Attempt.exn (PyExc.vimFault fl0))
    (hm0 : FAULT_NOT_AUTHENTICATED ∈ fl0)
    (h1 : script 1 = Attempt.exn (PyExc.vimFault fl1))
    (hm1 : FAULT_NOT_AUTHENTICATED ∈ fl1) :
    callMethod script n =
      ([SessionEvent.attempt 1, SessionEvent.createSession,
        SessionEvent.sleep, SessionEvent.attempt 2],
       CallResult.emptyList) := by
  obtain ⟨m, rfl⟩ : ∃ m, n = m + 1 := ⟨n - 1, by omega⟩
  rw [callMethod]
  rw [callMethodAux, h0]
  simp only [hm0, if_true, List.not_mem_nil, if_false]
  have hgt : ¬ (0 + 1 > m + 1) := by omega
  rw [if_neg hgt]
  rw [callMethodAux, h1]
  simp [hm0, hm1]

/-- C2 witness: with budget 1 and two consecutive `NotAuthenticated` faults,
the session creates one new session between attempts and returns `[]`. -/
theorem notauth_two_strikes_returns_empty_witness :
    callMethod (fun _ : Nat => Attempt.exn (α := Unit)
        (PyExc.vimFault ["NotAuthenticated"])) 1 =
      ([SessionEvent.attempt 1, SessionEvent.createSession,
        SessionEvent.sleep, SessionEvent.attempt 2],
       CallResult.emptyList) :=
  notauth_two_strikes_returns_empty _ 1 (by decide)
    ["NotAuthenticated"] ["NotAuthenticated"] rfl (by decide) rfl (by decide)

/-- Whether an exception is one that `_call_method` never retries: a
`VimFaultException` whose fault list lacks `NotAuthenticated` (the caller's
fault, e.g. `InvalidArgument`), or any plain exception — everything that is
classified neither as `NotAuthenticated` nor as Overload. -/
def isCallerFault : PyExc → Bool
  | PyExc.vimFault fl => decide (FAULT_NOT_AUTHENTICATED ∉ fl)
  | PyExc.overload _ => false
  | PyExc.generic _ => true

lemma callMethod_caller_fault {α : Type}
    (script : Nat → Attempt α) (n : Nat) (e : PyExc)
    (h0 : script 0 = Attempt.exn e) (he : isCallerFault e = true) :
    callMethod script n = ([SessionEvent.attempt 1], CallResult.raised e) := by
  rw [callMethod, callMethodAux, h0]
  match e with
  | PyExc.vimFault fl =>
    have hmem : FAULT_NOT_AUTHENTICATED ∉ fl := by
      simpa [isCallerFault] using he
    simp [hmem]
  | PyExc.overload d => simp [isCallerFault] at he
  | PyExc.generic d => simp

/-- C9: an invocation whose first attempt fails with a fault classified
neither as `NotAuthenticated` nor as Overload is raised after exactly one
attempt, with no retry and no inter-retry sleep. -/
theorem caller_fault_raised_after_one_attempt {α : Type}
    (script : Nat → Attempt α) (n : Nat) (e : PyExc)
    (h0 : script 0 = Attempt.exn e) (he : isCallerFault e = true) :
    callMethod script n = ([SessionEvent.attempt 1], CallResult.raised e) :=
  callMethod_caller_fault script n e h0 he

/-- C9 witness: an `InvalidArgument` vim fault is raised after a single
attempt even with a positive retry budget. -/
theorem caller_fault_raised_after_one_attempt_witness :
    callMethod (fun _ : Nat => Attempt.exn (α := Unit)
        (PyExc.vimFault ["InvalidArgument"])) 10 =
      ([SessionEvent.attempt 1],
       CallResult.raised (PyExc.vimFault ["InvalidArgument"])) :=
  caller_fault_raised_after_one_attempt _ 10 _ rfl (by decide)

/-- C3: a task whose polled state sequence starts `queued`, `running`,
`running`, `success` resolves with success after exactly 4 polls — the
`queued`/`running` polls reschedule the probe without resolving, and the
`success` poll resolves the wait and stops the loop. -/
theorem task_polling_resolves_after_four_polls (infos : Nat → TaskInfo)
    (fuel : Nat) (hfuel : 4 ≤ fuel)
    (h0 : (infos 0).state = "queued")
    (h1 : (infos 1).state = "running")
    (h2 : (infos 2).state = "running")
    (h3 : (infos 3).state = "success") :
    waitForTask infos fuel = some (4, WaitResult.success) := by
  obtain ⟨m, rfl⟩ : ∃ m, fuel = m + 4 := ⟨fuel - 4, by omega⟩
  rw [waitForTask]
  rw [waitForTaskAux]
  simp only [pollTask, h0, List.mem_cons, List.not_mem_nil, or_false,
             if_pos (by simp : ("queued" : String) = "queued" ∨
               ("queued" : String) = "running")]
  rw [waitForTaskAux]
  simp only [pollTask, h1,
             if_pos (by simp : ("running" : String) = "queued" ∨
               ("running" : String) = "running")]
  rw [waitForTaskAux]
  simp only [pollTask, h2,
             if_pos (by simp : ("running" : String) = "queued" ∨
               ("running" : String) = "running")]
  rw [waitForTaskAux]
  simp [pollTask, h3]

/-- C3 witness: the four-state script `[queued, running, running, success]`
resolves with success at the fourth poll. -/
theorem task_polling_resolves_after_four_polls_witness :
    waitForTask (fun k =>
      { name := "t",
        state := List.getD ["queued", "running", "running", "success"] k
                   "success",
        error := none }) 4 = some (4, WaitResult.success) :=
  task_polling_resolves_after_four_polls _ 4 (by decide) rfl rfl rfl rfl

/-- C4: a task whose first poll shows a terminal state other than `success`
with localized error message `m` makes the wait fail with an exception whose
message is exactly `m`, verbatim. -/
theorem task_failure_surfaces_message_verbatim (infos : Nat → TaskInfo)
    (fuel : Nat) (hfuel : 1 ≤ fuel) (s msg : String)
    (h0 : (infos 0).state = s)
    (hq : s ≠ "queued") (hr : s ≠ "running") (hs : s ≠ "success")
    (herr : (infos 0).error = some ⟨msg⟩) :
    waitForTask infos fuel = some (1, WaitResult.failure msg) := by
  obtain ⟨m, rfl⟩ : ∃ m, fuel = m + 1 := ⟨fuel - 1, by omega⟩
  rw [waitForTask, waitForTaskAux]
  simp [pollTask, h0, hq, hr, hs, herr]

/-- C4 witness: a task ending in `error` with message `disk full` fails with
exactly the message `disk full`. -/
theorem task_failure_surfaces_message_verbatim_witness :
    waitForTask (fun _ =>
      { name := "t", state := "error", error := some ⟨"disk full"⟩ }) 1 =
      some (1, WaitResult.failure "disk full") :=
  task_failure_surfaces_message_verbatim _ 1 (by decide) "error" "disk full"
    rfl (by decide) (by decide) (by decide) rfl

/-- C8: when `AddPortGroup` fails with an `AlreadyExists` fault (the losing
side of a concurrent port-group creation race), the session layer propagates
the fault after a single attempt rather than swallowing it, and
`create_port_group` swallows it and returns normally; any other vim fault
from `AddPortGroup` makes `create_port_group` raise. -/
theorem port_group_already_exists_swallowed {α : Type} (n : Nat)
    (script script2 : Nat → Attempt α) (fl fl2 : List String)
    (h0 : script 0 = Attempt.exn (PyExc.vimFault fl))
    (ha : FAULT_ALREADY_EXISTS ∈ fl) (hna : FAULT_NOT_AUTHENTICATED ∉ fl)
    (h02 : script2 0 = Attempt.exn (PyExc.vimFault fl2))
    (hna2 : FAULT_NOT_AUTHENTICATED ∉ fl2)
    (ha2 : FAULT_ALREADY_EXISTS ∉ fl2) :
    callMethod script n =
      ([SessionEvent.attempt 1], CallResult.raised (PyExc.vimFault fl)) ∧
    create_port_group script n = ([SessionEvent.attempt 1],
      PortGroupOutcome.ok) ∧
    create_port_group script2 n = ([SessionEvent.attempt 1],
      PortGroupOutcome.novaError (PyExc.vimFault fl2)) := by
  have hs : callMethod script n =
      ([SessionEvent.attempt 1], CallResult.raised (PyExc.vimFault fl)) :=
    callMethod_caller_fault script n _ h0 (by simp [isCallerFault, hna])
  have hs2 : callMethod script2 n =
      ([SessionEvent.attempt 1], CallResult.raised (PyExc.vimFault fl2)) :=
    callMethod_caller_fault script2 n _ h02 (by simp [isCallerFault, hna2])
  refine ⟨hs, ?_, ?_⟩
  · rw [create_port_group, hs]
    simp [ha]
  · rw [create_port_group, hs2]
    simp [ha2]

/-- C8 witness: with the concrete fault list `[AlreadyExists]` the session
raises it after one attempt, `create_port_group` returns normally, and with
`[DuplicateName]` it raises a `NovaException`. -/
theorem port_group_already_exists_swallowed_witness :
    callMethod (fun _ : Nat => Attempt.exn (α := Unit)
        (PyExc.vimFault ["AlreadyExists"])) 10 =
      ([SessionEvent.attempt 1],
       CallResult.raised (PyExc.vimFault ["AlreadyExists"])) ∧
    create_port_group (fun _ : Nat => Attempt.exn (α := Unit)
        (PyExc.vimFault ["AlreadyExists"])) 10 =
      ([SessionEvent.attempt 1], PortGroupOutcome.ok) ∧
    create_port_group (fun _ : Nat => Attempt.exn (α := Unit)
        (PyExc.vimFault ["DuplicateName"])) 10 =
      ([SessionEvent.attempt 1],
       PortGroupOutcome.novaError (PyExc.vimFault ["DuplicateName"])) :=
  port_group_already_exists_swallowed 10 _ _ ["AlreadyExists"]
    ["DuplicateName"] rfl (by decide) (by decide) rfl (by decide) (by decide)

/-- C5: when the instance name already resolves to an existing VM reference,
`spawn` raises `InstanceExists` right after the initial lookup — before any
remote creation call, so no second shell VM and no disk artifact is
created. -/
theorem spawn_conflict_before_any_creation (env : SpawnEnv)
    (h : env.vmExists = true) :
    spawn env = ([RemoteOp.lookupVmRef env.instanceName],
      SpawnResult.instanceExists env.instanceName) ∧
    (spawn env).1.countP isCreationOp = 0 := by
  refine ⟨by simp [spawn, h], ?_⟩
  simp [spawn, h, isCreationOp]

/-- C5 witness: a second spawn of `vm-a` fails at the existence check with
only the lookup issued. -/
theorem spawn_conflict_before_any_creation_witness :
    spawn { instanceName := "vm-a", imageRef := "img-1", vmExists := true,
            dataStoreName := "ds1", diskType := "preallocated",
            flatInjected := false, vncEnabled := false, ebsRoot := false,
            useLinkedClone := false, instancePathBase := "vmwarebase",
            cacheExists := false } =
      ([RemoteOp.lookupVmRef "vm-a"], SpawnResult.instanceExists "vm-a") ∧
    (spawn { instanceName := "vm-a", imageRef := "img-1", vmExists := true,
             dataStoreName := "ds1", diskType := "preallocated",
             flatInjected := false, vncEnabled := false, ebsRoot := false,
             useLinkedClone := false, instancePathBase := "vmwarebase",
             cacheExists := false }).1.countP isCreationOp = 0 :=
  spawn_conflict_before_any_creation _ rfl

/-- A spawn environment with linked cloning enabled (the default
configuration, `use_linked_clone = True`), a sparse source image and no
cached base artifact. -/
def spawnEnvLinkedClone : SpawnEnv :=
  { instanceName := "vm-a", imageRef := "img-1", vmExists := false,
    dataStoreName := "ds1", diskType := "sparse", flatInjected := false,
    vncEnabled := false, ebsRoot := false, useLinkedClone := true,
    instancePathBase := "vmwarebase", cacheExists := false }

/-- C6 counterexample: under the default linked-clone configuration the disk
phase converges on `vmwarebase/img-1.vmdk` — an artifact named after the
image reference, not `"<instanceName>.vmdk"` — even though the claimed
upload→copy→delete order is followed. -/
theorem disk_phase_canonical_name_not_instance_named :
    RemoteOp.copyVirtualDiskTask (sparseUploadedVmdkPath spawnEnvLinkedClone)
        (uploadedVmdkPath spawnEnvLinkedClone) ∈
          (spawn spawnEnvLinkedClone).1 ∧
    uploadedVmdkName spawnEnvLinkedClone = "vmwarebase/img-1.vmdk" ∧
    uploadedVmdkName spawnEnvLinkedClone ≠
      uploadFolder spawnEnvLinkedClone ++ "/" ++
        spawnEnvLinkedClone.instanceName ++ ".vmdk" := by
  refine ⟨?_, by decide, by decide⟩
  decide

/-- C6 (amended): in spawn's disk phase, on a cache miss, the sparse branch
issues upload(`-sparse`) → copy(sparse→thin at the canonical path) →
delete(`-sparse`), and any non-sparse (e.g. preallocated) branch issues
create(disk at the canonical path) → delete(`-flat` payload) →
upload(image); both converge on the one canonical artifact
`"<uploadFolder>/<uploadName>.vmdk"`, which is
`"<instanceName>/<instanceName>.vmdk"` exactly when linked cloning is
disabled — under the default linked-clone configuration it is named after
the image reference instead. -/
theorem disk_phase_branching (env : SpawnEnv)
    (hroot : env.ebsRoot = false)
    (hmiss : ¬(env.useLinkedClone = true ∧ env.cacheExists = true)) :
    (env.diskType = "sparse" →
      diskPhaseOps env =
        (if env.useLinkedClone then
           [RemoteOp.checkFolderFileExists (uploadFolder env)
              (uploadName env ++ ".vmdk")]
         else []) ++
        [RemoteOp.fetchImage (sparseUploadedVmdkName env),
         RemoteOp.copyVirtualDiskTask (sparseUploadedVmdkPath env)
           (uploadedVmdkPath env),
         RemoteOp.deleteDatastoreFileTask (sparseUploadedVmdkPath env),
         RemoteOp.attachDiskToVm (uploadedVmdkPath env) "thin"]) ∧
    (env.diskType ≠ "sparse" →
      diskPhaseOps env =
        (if env.useLinkedClone then
           [RemoteOp.checkFolderFileExists (uploadFolder env)
              (uploadName env ++ ".vmdk")]
         else []) ++
        [RemoteOp.createVirtualDiskTask (uploadedVmdkPath env),
         RemoteOp.deleteDatastoreFileTask (flatUploadedVmdkPath env),
         RemoteOp.fetchImage (flatUploadedVmdkName env),
         RemoteOp.attachDiskToVm (uploadedVmdkPath env) env.diskType]) ∧
    (env.useLinkedClone = false →
      uploadedVmdkName env =
        env.instanceName ++ "/" ++ env.instanceName ++ ".vmdk") := by
  have hcc : (env.useLinkedClone && env.cacheExists) = false := by
    cases hu : env.useLinkedClone <;> cases hc : env.cacheExists <;>
      simp_all
  refine ⟨?_, ?_, ?_⟩
  · intro hsparse
    simp [diskPhaseOps, hroot, hcc, hsparse]
  · intro hnotsparse
    simp [diskPhaseOps, hroot, hcc, hnotsparse]
  · intro hlc
    simp [uploadedVmdkName, uploadFolder, uploadName, hlc]

/-- A spawn environment with linked cloning disabled and a sparse source
image. -/
def spawnEnvPlainSparse : SpawnEnv :=
  { instanceName := "vm-a", imageRef := "img-1", vmExists := false,
    dataStoreName := "ds1", diskType := "sparse", flatInjected := false,
    vncEnabled := false, ebsRoot := false, useLinkedClone := false,
    instancePathBase := "vmwarebase", cacheExists := false }

/-- C6 amended-claim witness: with linked cloning disabled, the sparse branch
issues upload → copy → delete and converges on `vm-a/vm-a.vmdk`. -/
theorem disk_phase_branching_witness :
    diskPhaseOps spawnEnvPlainSparse =
      [RemoteOp.fetchImage "vm-a/vm-a-sparse.vmdk",
       RemoteOp.copyVirtualDiskTask "[ds1] vm-a/vm-a-sparse.vmdk"
         "[ds1] vm-a/vm-a.vmdk",
       RemoteOp.deleteDatastoreFileTask "[ds1] vm-a/vm-a-sparse.vmdk",
       RemoteOp.attachDiskToVm "[ds1] vm-a/vm-a.vmdk" "thin"] :=
  ((disk_phase_branching spawnEnvPlainSparse rfl (by decide)).1 rfl).trans
    (by decide)

/-- C7: in `destroy` the unregister and folder-deletion steps are wrapped
independently — for a powered-on VM whose `UnregisterVM` fails, the failure
is logged and the datastore-folder deletion is still attempted and completed;
and when the initial lookup finds no VM, `destroy` returns successfully with
no further remote calls. -/
theorem destroy_best_effort_cleanup :
    (∀ (env : DestroyEnv) (raw : String), env.vmExists = true →
      env.powerState = "poweredOn" → env.powerOffFails = false →
      env.unregisterFails = true → env.destroyDisks = true →
      env.networkInfo = false → env.deleteFails = false →
      env.vmPathName = some raw →
      destroy env =
        { ops := [RemoteOp.lookupVmRef env.instanceName,
                  RemoteOp.getObjectProperties, RemoteOp.powerOffVmTask,
                  RemoteOp.unregisterVm,
                  RemoteOp.deleteDatastoreFileTask
                    (build_datastore_path (split_datastore_path raw).1
                       (dirname (split_datastore_path raw).2))],
          warnings := ["got this exception while un-registering the VM"] }) ∧
    (∀ env : DestroyEnv, env.vmExists = false →
      destroy env =
        { ops := [RemoteOp.lookupVmRef env.instanceName], warnings := [] }) := by
  constructor
  · intro env raw hvm hpow hpf hunreg hdd hni hdf hpath
    simp [destroy, hvm, hpow, hpf, hunreg, hdd, hni, hdf, hpath]
  · intro env hvm
    simp [destroy, hvm]

/-- A destroy environment for a powered-on VM whose unregister step fails. -/
def destroyEnvUnregFails : DestroyEnv :=
  { instanceName := "vm-a", vmExists := true, powerState := "poweredOn",
    vmPathName := some "[ds1] vm-a/vm-a.vmx", networkInfo := false,
    destroyDisks := true, powerOffFails := false, unregisterFails := true,
    deleteFails := false }

/-- A destroy environment for an already-absent VM. -/
def destroyEnvAbsent : DestroyEnv :=
  { instanceName := "vm-b", vmExists := false, powerState := "poweredOff",
    vmPathName := none, networkInfo := false, destroyDisks := true,
    powerOffFails := false, unregisterFails := false, deleteFails := false }

/-- C7 witness: the powered-on VM with a failing unregister still gets its
`vm-a` datastore folder deleted; the absent VM only gets the lookup. -/
theorem destroy_best_effort_cleanup_witness :
    destroy destroyEnvUnregFails =
      { ops := [RemoteOp.lookupVmRef "vm-a", RemoteOp.getObjectProperties,
                RemoteOp.powerOffVmTask, RemoteOp.unregisterVm,
                RemoteOp.deleteDatastoreFileTask "[ds1] vm-a"],
        warnings := ["got this exception while un-registering the VM"] } ∧
    destroy destroyEnvAbsent =
      { ops := [RemoteOp.lookupVmRef "vm-b"], warnings := [] } :=
  ⟨(destroy_best_effort_cleanup.1 destroyEnvUnregFails "[ds1] vm-a/vm-a.vmx"
      rfl rfl rfl rfl rfl rfl rfl rfl).trans (by decide),
   destroy_best_effort_cleanup.2 destroyEnvAbsent rfl⟩

/-- C10: `power_on` on an instance whose VM exists and is already
`poweredOn` issues no `PowerOnVM_Task` call and returns normally; and two
consecutive `power_on` calls on an existing VM issue the power-on job at
most once. -/
theorem power_on_idempotent_at_remote :
    (∀ env : PowerEnv, env.vmExists = true → env.powerState = "poweredOn" →
      power_on env =
        ([RemoteOp.lookupVmRef env.instanceName,
          RemoteOp.getDynamicProperty "runtime.powerState"],
         PowerOnResult.ok, env)) ∧
    (∀ env : PowerEnv, env.vmExists = true →
      ((power_on env).1 ++ (power_on (power_on env).2.2).1).countP
        isPowerOnTaskOp ≤ 1) := by
  constructor
  · intro env hvm hpow
    simp [power_on, hvm, hpow]
  · intro env hvm
    by_cases hpow : env.powerState = "poweredOn"
    · simp [power_on, hvm, hpow, isPowerOnTaskOp]
    · simp [power_on, hvm, hpow, isPowerOnTaskOp]

/-- C10 witness: a powered-on `vm-a` gets no `PowerOnVM_Task`; a powered-off
`vm-b` powered on twice gets exactly one. -/
theorem power_on_idempotent_at_remote_witness :
    power_on { instanceName := "vm-a", vmExists := true,
               powerState := "poweredOn" } =
      ([RemoteOp.lookupVmRef "vm-a",
        RemoteOp.getDynamicProperty "runtime.powerState"],
       PowerOnResult.ok,
       { instanceName := "vm-a", vmExists := true,
         powerState := "poweredOn" }) ∧
    ((power_on { instanceName := "vm-b", vmExists := true,
                 powerState := "poweredOff" }).1 ++
      (power_on (power_on { instanceName := "vm-b", vmExists := true,
                            powerState := "poweredOff" }).2.2).1).countP
        isPowerOnTaskOp ≤ 1 :=
  ⟨power_on_idempotent_at_remote.1 _ rfl rfl,
   power_on_idempotent_at_remote.2
     { instanceName := "vm-b", vmExists := true,
       powerState := "poweredOff" } rfl⟩

end PyVmwareApi
